import Mathlib

/-!
Shallow embedding of the Genvex Connect client (Nabto packet codec,
NabtoConnection session logic, NabtoDiscovery collection, GenvexDevice
polling engine and the Optima 270 / Optima 251 register catalogs),
with theorems checking the natural-language specification against it.

Byte buffers (Node Buffer values) are modelled as lists of naturals;
a well-formed buffer holds entries below 256.  Reads beyond the end of
a buffer yield 0, mirroring the fact that the source always guards its
reads by explicit length checks (the theorems make those guards
explicit).  JavaScript numbers are modelled as Nat (byte/word fields),
Int (signed register values) or Rat (display values), whichever the
source value ranges over.
-/

namespace Genvex

/-- A byte buffer: the contents of a Node Buffer, one natural per byte. -/
abbrev Buf := List Nat

/-- Buffer.readUInt8: the byte at index i (out-of-range reads are guarded
in the source; getD 0 keeps the model total). -/
def readUInt8 (b : Buf) (i : Nat) : Nat := b.getD i 0

/-- Buffer.readUInt16BE at index i. -/
def readUInt16BE (b : Buf) (i : Nat) : Nat :=
  b.getD i 0 * 256 + b.getD (i + 1) 0

/-- Buffer.readUInt32BE at index i. -/
def readUInt32BE (b : Buf) (i : Nat) : Nat :=
  ((b.getD i 0 * 256 + b.getD (i + 1) 0) * 256 + b.getD (i + 2) 0) * 256
    + b.getD (i + 3) 0

/-- Buffer.readInt16BE at index i: big-endian 16-bit, two's complement. -/
def readInt16BE (b : Buf) (i : Nat) : Int :=
  let u := readUInt16BE b i
  if u < 32768 then (u : Int) else (u : Int) - 65536

/-- Buffer.writeUInt16BE: the two big-endian bytes of a 16-bit value. -/
def writeUInt16BE (n : Nat) : Buf := [n / 256 % 256, n % 256]

/-- Buffer.writeUInt32BE: the four big-endian bytes of a 32-bit value. -/
def writeUInt32BE (n : Nat) : Buf :=
  [n / 16777216 % 256, n / 65536 % 256, n / 256 % 256, n % 256]

namespace NabtoPacket

/-! Constants from NabtoPacket.js. -/

def HDR_SIZE : Nat := 16
def HDR_VERSION : Nat := 0x02
def TYPE_U_CONNECT : Nat := 0x83
def TYPE_DATA : Nat := 0x16
def TYPE_U_ALIVE : Nat := 0x82
def FLAG_NONE : Nat := 0x00
def FLAG_RESPONSE : Nat := 0x01
def FLAG_TAG : Nat := 0x40
def PAYLOAD_CRYPT : Nat := 0x36
def CMD_PING : Nat := 0x11
def CMD_SETPOINT_READLIST : Nat := 0x2A
def CMD_SETPOINT_WRITELIST : Nat := 0x2B
def CMD_DATAPOINT_READLIST : Nat := 0x2D
def CRYPTO_CLEARTEXT : Nat := 0x000A

/-- NabtoPacket.buildHeader: the 16-byte regular header. -/
def buildHeader (clientId serverId ptype flags seqId totalLen : Nat) : Buf :=
  writeUInt32BE clientId ++ writeUInt32BE serverId
    ++ [ptype % 256, HDR_VERSION, 0x00, flags % 256]
    ++ writeUInt16BE seqId ++ writeUInt16BE totalLen

/-- The result of NabtoPacket.parseHeader. -/
structure Header where
  clientId : Nat
  serverId : Nat
  ptype : Nat
  version : Nat
  flags : Nat
  seqId : Nat
  length : Nat
deriving Repr, DecidableEq

/-- NabtoPacket.parseHeader. -/
def parseHeader (data : Buf) : Option Header :=
  if data.length < HDR_SIZE then none
  else some
    { clientId := readUInt32BE data 0
      serverId := readUInt32BE data 4
      ptype := readUInt8 data 8
      version := readUInt8 data 9
      flags := readUInt8 data 11
      seqId := readUInt16BE data 12
      length := readUInt16BE data 14 }

/-- NabtoPacket.computeChecksum: 16-bit sum of all bytes, big-endian. -/
def computeChecksum (data : Buf) : Buf :=
  writeUInt16BE (data.sum % 65536)

/-- NabtoPacket.buildCryptPayload:
[type=0x36][flags=0x00][len:2][crypto code:2][cmd][0x02]. -/
def buildCryptPayload (commandData : Buf) : Buf :=
  let len := 9 + commandData.length
  [PAYLOAD_CRYPT, 0x00] ++ writeUInt16BE len ++ writeUInt16BE CRYPTO_CLEARTEXT
    ++ commandData ++ [0x02]

/-- NabtoPacket._buildDataPacket: header + (frame-control tag when
keep-alive) + CRYPT payload + checksum. -/
def buildDataPacket (clientId serverId seqId : Nat) (commandData : Buf)
    (isKeepAlive : Bool) : Buf :=
  let crypt := buildCryptPayload commandData
  let flags := if isKeepAlive then FLAG_TAG else FLAG_NONE
  let extra : Buf := if isKeepAlive then [0x00, 0x03] else []
  let payloadLen := extra.length + crypt.length
  let totalLen := HDR_SIZE + payloadLen
  let hdr := buildHeader clientId serverId TYPE_DATA flags seqId (totalLen + 2)
  let body := hdr ++ extra ++ crypt
  body ++ computeChecksum body

/-- NabtoPacket.buildPingPacket: PING command, fixed sequence id 50. -/
def buildPingPacket (clientId serverId : Nat) : Buf :=
  buildDataPacket clientId serverId 50
    [0x00, 0x00, 0x00, CMD_PING, 0x70, 0x69, 0x6E, 0x67] false

/-- The result of NabtoPacket.parseDataResponse. -/
structure DataResponse where
  seqId : Nat
  commandData : Buf
deriving Repr, DecidableEq

/-- NabtoPacket.parseDataResponse: locate the CRYPT payload (offset 16,
or 18 when the TAG flag is set) and slice the command bytes out of it;
the end of the slice is clamped to the buffer length. -/
def parseDataResponse (data : Buf) : Option DataResponse :=
  match parseHeader data with
  | none => none
  | some hdr =>
    if hdr.ptype ≠ TYPE_DATA then none
    else
      let offset := HDR_SIZE + (if hdr.flags.land FLAG_TAG ≠ 0 then 2 else 0)
      if offset ≥ data.length then none
      else
        let payloadType := readUInt8 data offset
        if payloadType ≠ PAYLOAD_CRYPT then none
        else
          let payloadLen := readUInt16BE data (offset + 2)
          let cmdStart := offset + 6
          let cmdEnd := min (offset + 4 + payloadLen) data.length
          if cmdStart ≥ data.length ∨ cmdEnd ≤ cmdStart then none
          else some ⟨hdr.seqId, (data.drop cmdStart).take (cmdEnd - cmdStart)⟩

/-- The value-reading loop shared by parseDatapointResponse and
parseSetpointResponse: read up to count 16-bit values starting at
offset, stopping at the first offset with fewer than 2 bytes left. -/
def readValuesWith (f : Buf → Nat → Int) (p : Buf) : Nat → Nat → List Int
  | 0, _ => []
  | count + 1, offset =>
    if offset + 2 > p.length then []
    else f p offset :: readValuesWith f p count (offset + 2)

/-- NabtoPacket.parseDatapointResponse: count at offset 0, then count
signed 16-bit big-endian values from offset 2. -/
def parseDatapointResponse (payload : Buf) : List Int :=
  if payload.length < 2 then []
  else readValuesWith readInt16BE payload (readUInt16BE payload 0) 2

/-- NabtoPacket.parseSetpointResponse: skip one byte, count at offset 1,
then count unsigned 16-bit big-endian values from offset 3. -/
def parseSetpointResponse (payload : Buf) : List Int :=
  if payload.length < 3 then []
  else readValuesWith (fun b i => (readUInt16BE b i : Int)) payload
    (readUInt16BE payload 1) 3

/-- The result of NabtoPacket.parsePingResponse. -/
structure PingInfo where
  deviceNumber : Nat
  deviceModel : Nat
  slaveDeviceNumber : Nat
  slaveDeviceModel : Nat
deriving Repr, DecidableEq

/-- NabtoPacket.parsePingResponse: null for buffers shorter than 4
bytes, otherwise four 32-bit values at offsets 0, 4, 12, 16, each field
left at 0 when its bytes are not fully present. -/
def parsePingResponse (payload : Buf) : Option PingInfo :=
  if payload.length < 4 then none
  else some
    { deviceNumber := if 4 ≤ payload.length then readUInt32BE payload 0 else 0
      deviceModel := if 8 ≤ payload.length then readUInt32BE payload 4 else 0
      slaveDeviceNumber :=
        if 16 ≤ payload.length then readUInt32BE payload 12 else 0
      slaveDeviceModel :=
        if 20 ≤ payload.length then readUInt32BE payload 16 else 0 }

/-- The result of NabtoPacket.parseDiscoveryResponse.  The device id is
kept as its ASCII byte list. -/
structure DiscoveryInfo where
  deviceId : List Nat
  localPort : Nat
deriving Repr, DecidableEq

/-- NabtoPacket.parseDiscoveryResponse: length at least 20, header word
0x00800001, device id as the null-terminated ASCII run from offset 19
(rest of buffer when no terminator), rejected when empty. -/
def parseDiscoveryResponse (data : Buf) : Option DiscoveryInfo :=
  if data.length < 20 then none
  else
    let headerWord := readUInt32BE data 0
    if headerWord ≠ 0x00800001 then none
    else
      let deviceId := (data.drop 19).takeWhile (fun b => b ≠ 0)
      if deviceId.length = 0 then none
      else some ⟨deviceId, 5570⟩

end NabtoPacket

/-! Discovery (NabtoDiscovery.discover).  The socket message handler
parses each datagram and appends one device record per valid response;
the promise resolves with the accumulated list at the timeout.  A
datagram is a pair of buffer and rinfo (sender address and port). -/

/-- One entry of the list NabtoDiscovery.discover resolves with. -/
structure FoundDevice where
  deviceId : List Nat
  ip : String
  port : Nat
deriving Repr, DecidableEq

/-- The accumulation performed by the message handler of
NabtoDiscovery.discover over the datagrams received before the timeout:
every datagram that parses as a discovery response appends one record. -/
def discoverCollect (msgs : List (Buf × String × Nat)) : List FoundDevice :=
  msgs.foldl
    (fun devices m =>
      match NabtoPacket.parseDiscoveryResponse m.1 with
      | some parsed => devices ++ [⟨parsed.deviceId, m.2.1, m.2.2⟩]
      | none => devices)
    []

/-! Session (NabtoConnection).  Only the state the claims touch is
modelled: the connected flag, the socket presence, the user sequence
counter (seqId, initialised to 300) and the keep-alive counter
(keepAliveSeq, initialised to 100). -/

structure ConnState where
  connected : Bool
  hasSocket : Bool
  seqId : Nat
  keepAliveSeq : Nat
deriving Repr, DecidableEq

/-- The sequence-relevant fields as set by the NabtoConnection
constructor (the socket exists once connect() has bound it). -/
def initConnState : ConnState :=
  { connected := false, hasSocket := false, seqId := 300, keepAliveSeq := 100 }

/-- The state after a successful connect: the socket is bound and the
U_CONNECT response handler has set connected = true. -/
def connectedState : ConnState :=
  { initConnState with connected := true, hasSocket := true }

/-- NabtoConnection._nextSeqId: return the counter and post-increment. -/
def nextSeqId (s : ConnState) : Nat × ConnState :=
  (s.seqId, { s with seqId := s.seqId + 1 })

/-- One firing of the keep-alive interval callback installed by
NabtoConnection._startKeepAlive: do nothing unless connected with a
socket; otherwise advance the keep-alive counter (wrapping from 199
back to 100) and send NabtoPacket.buildPingPacket(clientId, serverId).
The local value seq mirrors the source; the packet built does not take
it. -/
def keepAliveTick (s : ConnState) (clientId serverId : Nat) :
    ConnState × Option Buf :=
  if s.connected = false ∨ s.hasSocket = false then (s, none)
  else
    let seq := s.keepAliveSeq
    let bumped := s.keepAliveSeq + 1
    let wrapped := if bumped ≥ 200 then 100 else bumped
    let _ := seq
    ({ s with keepAliveSeq := wrapped },
      some (NabtoPacket.buildPingPacket clientId serverId))

/-- The three user request operations of NabtoConnection. -/
inductive ReqKind
  | readDatapoints
  | readSetpoints
  | writeSetpoints
deriving Repr, DecidableEq

/-- Sequence-number allocation of NabtoConnection.readDatapoints. -/
def readDatapointsAlloc (s : ConnState) : Nat × ConnState := nextSeqId s

/-- Sequence-number allocation of NabtoConnection.readSetpoints. -/
def readSetpointsAlloc (s : ConnState) : Nat × ConnState := nextSeqId s

/-- Sequence-number allocation of NabtoConnection.writeSetpoints. -/
def writeSetpointsAlloc (s : ConnState) : Nat × ConnState := nextSeqId s

/-- Sequence-number allocation of one user request. -/
def allocSeq (s : ConnState) : ReqKind → Nat × ConnState
  | .readDatapoints => readDatapointsAlloc s
  | .readSetpoints => readSetpointsAlloc s
  | .writeSetpoints => writeSetpointsAlloc s

/-- The sequence numbers assigned to a series of user requests issued
on one session, in order. -/
def seqTrace (s : ConnState) : List ReqKind → List Nat
  | [] => []
  | k :: ks =>
    let a := allocSeq s k
    a.1 :: seqTrace a.2 ks

/-! JavaScript Map with string keys: an insertion-ordered association
list; set replaces in place when the key exists and appends otherwise. -/

/-- Map.prototype.set. -/
def jsMapSet {β : Type} (m : List (String × β)) (k : String) (v : β) :
    List (String × β) :=
  if m.any (fun p => p.1 == k) then
    m.map (fun p => if p.1 == k then (k, v) else p)
  else m ++ [(k, v)]

/-- Map.prototype.get. -/
def jsMapGet {β : Type} (m : List (String × β)) (k : String) : Option β :=
  (m.find? (fun p => p.1 == k)).map (fun p => p.2)

/-- The result construction in the resolver installed by
NabtoConnection.readDatapoints and readSetpoints: pair the requested
keys with the parsed values positionally, up to the shorter of the two
lists. -/
def buildResultMap (keys : List String) (values : List Int) :
    List (String × Int) :=
  (List.range (min keys.length values.length)).foldl
    (fun m i => jsMapSet m (keys.getD i "") (values.getD i 0)) []

/-- The map NabtoConnection.readDatapoints resolves with, given the
requested key list and the command bytes of the matching response. -/
def readDatapointsResult (keys : List String) (cmdData : Buf) :
    List (String × Int) :=
  buildResultMap keys (NabtoPacket.parseDatapointResponse cmdData)

/-- The map NabtoConnection.readSetpoints resolves with. -/
def readSetpointsResult (keys : List String) (cmdData : Buf) :
    List (String × Int) :=
  buildResultMap keys (NabtoPacket.parseSetpointResponse cmdData)

/-! Register catalogs (Optima270.js and Optima251.js).  Display-only
fields (unit, homeyCapability) are carried along verbatim; min and max
are optional because setValue in GenvexDevice.js guards each bound with
an undefined check. -/

/-- A setpoint register descriptor. -/
structure Setpoint where
  name : String
  readAddress : Nat
  writeAddress : Nat
  divider : Int
  offset : Int
  min : Option Int
  max : Option Int
  unit : String
  writeOnly : Bool
deriving Repr, DecidableEq

/-- The divider with JavaScript falsy-coalescing: divider || 1. -/
def effDivider (divider : Int) : ℚ :=
  if divider = 0 then 1 else (divider : ℚ)

/-- convertSetpointValue (Optima270.js and Optima251.js define it with
the same body): display = (raw + (offset || 0)) / (divider || 1). -/
def convertSetpointValue (rawValue : ℚ) (r : Setpoint) : ℚ :=
  (rawValue + (r.offset : ℚ)) / effDivider r.divider

/-- toRawSetpointValue: raw = Math.round(display * (divider || 1)) −
(offset || 0).  Math.round rounds half toward positive infinity, as
does Mathlib round. -/
def toRawSetpointValue (displayValue : ℚ) (r : Setpoint) : Int :=
  round (displayValue * effDivider r.divider) - r.offset

/-- getSetpointByName: first catalog entry with the given name. -/
def getSetpointByName (catalog : List Setpoint) (name : String) :
    Option Setpoint :=
  catalog.find? (fun sp => sp.name == name)

namespace Optima270

def FAN_SPEED : Setpoint :=
  { name := "fanSpeed", readAddress := 7, writeAddress := 24, divider := 1,
    offset := 0, min := some 1, max := some 4, unit := "",
    writeOnly := false }

def TEMP_SETPOINT : Setpoint :=
  { name := "temperatureSetpoint", readAddress := 1, writeAddress := 12,
    divider := 10, offset := 100, min := some 0, max := some 200,
    unit := "°C", writeOnly := false }

def BYPASS_OPENOFFSET : Setpoint :=
  { name := "bypassOpenOffset", readAddress := 21, writeAddress := 52,
    divider := 1, offset := 0, min := some 0, max := some 10,
    unit := "°C", writeOnly := false }

def REHEATING : Setpoint :=
  { name := "reheating", readAddress := 3, writeAddress := 16, divider := 1,
    offset := 0, min := some 0, max := some 1, unit := "",
    writeOnly := false }

def FILTER_DAYS : Setpoint :=
  { name := "filterDays", readAddress := 100, writeAddress := 210,
    divider := 1, offset := 0, min := some 0, max := some 65535,
    unit := "days", writeOnly := false }

def FILTER_RESET : Setpoint :=
  { name := "filterReset", readAddress := 50, writeAddress := 110,
    divider := 1, offset := 0, min := some 0, max := some 2, unit := "",
    writeOnly := false }

/-- Object.values(Optima270Setpoints) in property insertion order. -/
def setpointList : List Setpoint :=
  [FAN_SPEED, TEMP_SETPOINT, BYPASS_OPENOFFSET, REHEATING, FILTER_DAYS,
   FILTER_RESET]

end Optima270

namespace Optima251

def FAN_SPEED : Setpoint :=
  { name := "fanSpeed", readAddress := 100, writeAddress := 100,
    divider := 1, offset := 0, min := some 0, max := some 4, unit := "",
    writeOnly := false }

def TEMP_SETPOINT : Setpoint :=
  { name := "temperatureSetpoint", readAddress := 0, writeAddress := 0,
    divider := 10, offset := 100, min := some 0, max := some 200,
    unit := "°C", writeOnly := false }

def REHEATING : Setpoint :=
  { name := "reheating", readAddress := 2, writeAddress := 2, divider := 1,
    offset := 0, min := some 0, max := some 1, unit := "",
    writeOnly := false }

def FILTER_RESET : Setpoint :=
  { name := "filterReset", readAddress := 105, writeAddress := 105,
    divider := 1, offset := 0, min := some 0, max := some 1, unit := "",
    writeOnly := true }

/-- Object.values(Optima251Setpoints) in property insertion order. -/
def setpointList : List Setpoint :=
  [FAN_SPEED, TEMP_SETPOINT, REHEATING, FILTER_RESET]

end Optima251

/-! GenvexDevice.setValue: look the setpoint up by name, convert the
display value to a raw value, validate the bounds, send one
writeSetpoints entry, update the cache.  The outcome records, in order,
the writeSetpoints calls issued (each a list of entries), the cache
after the call, and the error thrown if any; a throw happens before any
later effect, so an erroneous outcome carries no sent entries and the
unchanged cache. -/

/-- One entry of a CMD_SETPOINT_WRITELIST request, as passed to
NabtoConnection.writeSetpoints. -/
structure WriteEntry where
  id : Nat
  value : Int
  param : Nat
deriving Repr, DecidableEq

/-- The errors GenvexDevice.setValue can throw. -/
inductive SetValueError
  | unknownSetpoint
  | belowMin (raw lo : Int)
  | aboveMax (raw hi : Int)
deriving Repr, DecidableEq

/-- The observable outcome of one GenvexDevice.setValue call. -/
structure SetValueOutcome where
  sent : List (List WriteEntry)
  cache : List (String × ℚ)
  thrown : Option SetValueError
deriving Repr, DecidableEq

/-- Test of the guard (register.min !== undefined && rawValue <
register.min). -/
def belowMinCheck (r : Setpoint) (raw : Int) : Bool :=
  match r.min with
  | some lo => raw < lo
  | none => false

/-- Test of the guard (register.max !== undefined && rawValue >
register.max). -/
def aboveMaxCheck (r : Setpoint) (raw : Int) : Bool :=
  match r.max with
  | some hi => hi < raw
  | none => false

/-- GenvexDevice.setValue over a given catalog and cache. -/
def setValue (catalog : List Setpoint) (cache : List (String × ℚ))
    (name : String) (value : ℚ) : SetValueOutcome :=
  match getSetpointByName catalog name with
  | none => ⟨[], cache, some .unknownSetpoint⟩
  | some register =>
    let rawValue := toRawSetpointValue value register
    if belowMinCheck register rawValue then
      ⟨[], cache, some (.belowMin rawValue (register.min.getD 0))⟩
    else if aboveMaxCheck register rawValue then
      ⟨[], cache, some (.aboveMax rawValue (register.max.getD 0))⟩
    else
      ⟨[[⟨0, rawValue, register.writeAddress⟩]], jsMapSet cache name value,
        none⟩

/-! GenvexDevice polling engine (the poll error path and disconnect). -/

/-- Events emitted by GenvexDevice; errorEvent true marks the extra
"Too many consecutive poll failures" error. -/
inductive EngineEvent
  | errorEvent (tooMany : Bool)
  | disconnectedEvent
  | polledEvent
deriving Repr, DecidableEq

/-- The GenvexDevice state the failure-policy claims touch. -/
structure EngineState where
  connected : Bool
  polling : Bool
  consecutiveErrors : Nat
  maxConsecutiveErrors : Nat
  data : List (String × ℚ)
  events : List EngineEvent
deriving Repr, DecidableEq

/-- GenvexDevice.disconnect: stop polling, tear the session down, emit
disconnected.  The cache (this.data) is not touched. -/
def engineDisconnect (s : EngineState) : EngineState :=
  { s with
    polling := false
    connected := false
    events := s.events ++ [.disconnectedEvent] }

/-- One GenvexDevice.poll call whose reads fail (the catch branch):
return quietly when not connected; otherwise increment
consecutiveErrors and emit error, and at maxConsecutiveErrors reset the
counter, emit the too-many error and call disconnect(). -/
def pollFail (s : EngineState) : EngineState :=
  if s.connected = false then s
  else
    let s1 := { s with
      consecutiveErrors := s.consecutiveErrors + 1
      events := s.events ++ [.errorEvent false] }
    if s1.maxConsecutiveErrors ≤ s1.consecutiveErrors then
      engineDisconnect { s1 with
        consecutiveErrors := 0
        events := s1.events ++ [.errorEvent true] }
    else s1

/-- One GenvexDevice.poll call whose reads succeed: reset the
consecutive-error counter and emit polled (the per-register cache
updates are modelled by buildResultMap and jsMapSet above). -/
def pollSuccess (s : EngineState) : EngineState :=
  if s.connected = false then s
  else { s with consecutiveErrors := 0, events := s.events ++ [.polledEvent] }

/-- A connected engine with maxConsecutiveErrors = 3 (the constructor
value), no failures yet, and a given cache. -/
def engineStart (cache : List (String × ℚ)) : EngineState :=
  { connected := true, polling := true, consecutiveErrors := 0,
    maxConsecutiveErrors := 3, data := cache, events := [] }

/-- The number of error events in an event list. -/
def errorEventCount (evs : List EngineEvent) : Nat :=
  evs.countP (fun e => match e with | .errorEvent _ => true | _ => false)

/-! Vocabulary for the crypto-code claims: the CRYPT payload starts at
offset 16 (or 18 when the TAG flag is set) and its body begins with the
two crypto-code bytes after the 4-byte payload header, per the wire
layout the parser itself skips over. -/

/-- The offset of the CRYPT payload in a DATA frame. -/
def cryptOffset (data : Buf) : Nat :=
  NabtoPacket.HDR_SIZE
    + (if (readUInt8 data 11).land NabtoPacket.FLAG_TAG ≠ 0 then 2 else 0)

/-- The crypto code a DATA frame carries in its CRYPT payload. -/
def cryptoCodeOf (data : Buf) : Nat :=
  readUInt16BE data (cryptOffset data + 4)

/-- A structurally well-formed inbound DATA frame (type 0x16, CRYPT
payload, declared payload length 13 for a 4-byte command) whose two
crypto-code bytes are parameters: header, CRYPT header, crypto code,
command bytes, terminator 0x02, two checksum bytes. -/
def inboundDataFrame (c1 c2 : Nat) : Buf :=
  [0, 0, 0, 1, 0, 0, 0, 2, 0x16, 0x02, 0x00, 0x00, 1, 44, 0, 29,
   0x36, 0x00, 0, 13, c1, c2, 0xAA, 0xBB, 0xCC, 0xDD, 0x02, 0, 0]

/-- A valid 21-byte discovery response datagram announcing the
one-letter device id "A" (byte 65): response header word 0x00800001,
bytes 4-18 zero, device id at offset 19, null terminator. -/
def discoveryReplyA : Buf :=
  [0, 0x80, 0, 1] ++ List.replicate 15 0 ++ [65, 0]

/-- The claim-side field rule for ping responses: a 32-bit field is the
big-endian read at its offset when its four bytes are available and 0
otherwise. -/
def pingField (p : Buf) (o : Nat) : Nat :=
  if o + 4 ≤ p.length then readUInt32BE p o else 0

/-! Helper lemmas. -/

/-- The bounded value-reading loop reads the 16-bit slots in order and
stops at the declared count or at the last complete slot, whichever
comes first. -/
lemma readValuesWith_map (f : Buf → Nat → Int) (p : Buf) :
    ∀ (c s : Nat), NabtoPacket.readValuesWith f p c s =
      (List.range (min c ((p.length - s) / 2))).map (fun i => f p (s + 2 * i))
  | 0, s => by simp [NabtoPacket.readValuesWith]
  | c + 1, s => by
    rw [NabtoPacket.readValuesWith]
    by_cases h : s + 2 > p.length
    · rw [if_pos h]
      have h0 : (p.length - s) / 2 = 0 := Nat.div_eq_of_lt (by omega)
      rw [h0]
      simp
    · rw [if_neg h]
      have hsplit : (p.length - s) / 2 = (p.length - (s + 2)) / 2 + 1 := by
        have he : p.length - s = (p.length - (s + 2)) + 2 := by omega
        rw [he, Nat.add_div_right _ (by norm_num)]
      rw [hsplit, Nat.succ_min_succ, List.range_succ_eq_map,
        readValuesWith_map f p c (s + 2)]
      simp only [List.map_cons, List.map_map, Nat.mul_zero, Nat.add_zero]
      refine congrArg₂ _ rfl ?_
      refine List.map_congr_left fun i _ => ?_
      simp only [Function.comp]
      congr 1
      omega

/-- The discovery fold with any accumulator: the accumulated list plus
one entry per valid response, in arrival order. -/
lemma discoverFold_eq (g : Buf × String × Nat → Option FoundDevice)
    (hg : ∀ m, g m = (NabtoPacket.parseDiscoveryResponse m.1).map
      (fun parsed => ⟨parsed.deviceId, m.2.1, m.2.2⟩)) :
    ∀ (msgs : List (Buf × String × Nat)) (acc : List FoundDevice),
      msgs.foldl
        (fun devices m =>
          match NabtoPacket.parseDiscoveryResponse m.1 with
          | some parsed => devices ++ [⟨parsed.deviceId, m.2.1, m.2.2⟩]
          | none => devices) acc
      = acc ++ msgs.filterMap g
  | [], acc => by simp
  | m :: ms, acc => by
    rw [List.foldl_cons, List.filterMap_cons]
    rcases hparse : NabtoPacket.parseDiscoveryResponse m.1 with _ | parsed
    · have hm : g m = none := by rw [hg m, hparse]; rfl
      rw [hm]
      exact discoverFold_eq g hg ms acc
    · have hm : g m = some ⟨parsed.deviceId, m.2.1, m.2.2⟩ := by
        rw [hg m, hparse]; rfl
      rw [hm]
      have h2 : (acc ++ [(⟨parsed.deviceId, m.2.1, m.2.2⟩ : FoundDevice)])
            ++ List.filterMap g ms
          = acc ++ (⟨parsed.deviceId, m.2.1, m.2.2⟩ : FoundDevice)
            :: List.filterMap g ms := by
        simp
      exact (discoverFold_eq g hg ms
        (acc ++ [⟨parsed.deviceId, m.2.1, m.2.2⟩])).trans h2

/-! C10. -/

/-- C10: for every input buffer, parseDatapointResponse and
parseSetpointResponse read only whole 16-bit slots that lie inside the
buffer and return exactly min(count, available complete slots) values,
in slot order (so neither parser ever reads past the end, and a list is
always returned). -/
theorem value_parsers_read_within_bounds (p : Buf) :
    NabtoPacket.parseDatapointResponse p =
      (List.range (min (readUInt16BE p 0) ((p.length - 2) / 2))).map
        (fun i => readInt16BE p (2 + 2 * i))
    ∧ (NabtoPacket.parseDatapointResponse p).length =
        min (readUInt16BE p 0) ((p.length - 2) / 2)
    ∧ NabtoPacket.parseSetpointResponse p =
      (List.range (min (readUInt16BE p 1) ((p.length - 3) / 2))).map
        (fun i => (readUInt16BE p (3 + 2 * i) : Int))
    ∧ (NabtoPacket.parseSetpointResponse p).length =
        min (readUInt16BE p 1) ((p.length - 3) / 2) := by
  have hdp : NabtoPacket.parseDatapointResponse p =
      (List.range (min (readUInt16BE p 0) ((p.length - 2) / 2))).map
        (fun i => readInt16BE p (2 + 2 * i)) := by
    rw [NabtoPacket.parseDatapointResponse]
    by_cases h : p.length < 2
    · rw [if_pos h]
      have h0 : p.length - 2 = 0 := by omega
      rw [h0]
      simp
    · rw [if_neg h, readValuesWith_map]
  have hsp : NabtoPacket.parseSetpointResponse p =
      (List.range (min (readUInt16BE p 1) ((p.length - 3) / 2))).map
        (fun i => (readUInt16BE p (3 + 2 * i) : Int)) := by
    rw [NabtoPacket.parseSetpointResponse]
    by_cases h : p.length < 3
    · rw [if_pos h]
      have h0 : (p.length - 3) / 2 = 0 := Nat.div_eq_of_lt (by omega)
      rw [h0]
      simp
    · rw [if_neg h, readValuesWith_map]
  refine ⟨hdp, ?_, hsp, ?_⟩
  · rw [hdp]; simp
  · rw [hsp]; simp

/-! C2. -/

/-- C2 counterexample: the device answering a retransmitted probe makes
the same valid response arrive twice, and broadcast discovery then
resolves with the same (deviceId, address, port) triple at two list
positions, so the returned list is not duplicate-free. -/
theorem discovery_keeps_duplicate_triples :
    NabtoPacket.parseDiscoveryResponse discoveryReplyA =
      some ⟨[65], 5570⟩
    ∧ discoverCollect
        [(discoveryReplyA, "10.0.0.5", 5570), (discoveryReplyA, "10.0.0.5", 5570)] =
      [⟨[65], "10.0.0.5", 5570⟩, ⟨[65], "10.0.0.5", 5570⟩]
    ∧ ¬ (discoverCollect
        [(discoveryReplyA, "10.0.0.5", 5570),
         (discoveryReplyA, "10.0.0.5", 5570)]).Nodup := by
  refine ⟨by decide, by decide, by decide⟩

/-- C2 amended: broadcast discovery resolves with one (deviceId,
address, port) triple per valid discovery response received before the
timeout, in arrival order, with invalid datagrams dropped; duplicate
responses are kept, so the list may repeat a triple. -/
theorem discoverCollect_one_entry_per_valid_response
    (msgs : List (Buf × String × Nat)) :
    discoverCollect msgs = msgs.filterMap
      (fun m => (NabtoPacket.parseDiscoveryResponse m.1).map
        (fun parsed => ⟨parsed.deviceId, m.2.1, m.2.2⟩)) := by
  rw [discoverCollect, discoverFold_eq _ (fun m => rfl) msgs []]
  rfl

/-! C3. -/

/-- C3 counterexample: a structurally well-formed DATA frame whose
CRYPT payload carries crypto code 0x0BAD (not the cleartext code
0x000A) is not rejected: parseDataResponse returns its sequence id and
command bytes. -/
theorem noncleartext_frame_accepted :
    cryptoCodeOf (inboundDataFrame 0x0B 0xAD) = 0x0BAD
    ∧ 0x0BAD ≠ NabtoPacket.CRYPTO_CLEARTEXT
    ∧ NabtoPacket.parseDataResponse (inboundDataFrame 0x0B 0xAD) =
        some ⟨300, [0xAA, 0xBB, 0xCC, 0xDD, 0x02, 0, 0]⟩ := by
  refine ⟨by decide, by decide, by decide⟩

/-- C3 amended: parseDataResponse never inspects the crypto code; a
structurally well-formed DATA/CRYPT frame parses to the same (seqId,
command bytes) result whatever its two crypto-code bytes hold, so
command bytes are returned for non-cleartext codes as well. -/
theorem parseDataResponse_ignores_cryptoCode (c1 c2 : Nat) :
    NabtoPacket.parseDataResponse (inboundDataFrame c1 c2) =
      some ⟨300, [0xAA, 0xBB, 0xCC, 0xDD, 0x02, 0, 0]⟩
    ∧ cryptoCodeOf (inboundDataFrame c1 c2) = c1 * 256 + c2 := by
  have hland : Nat.land 0 64 = 0 := rfl
  constructor
  · simp [NabtoPacket.parseDataResponse, NabtoPacket.parseHeader,
      inboundDataFrame, readUInt8, readUInt16BE, NabtoPacket.HDR_SIZE,
      NabtoPacket.TYPE_DATA, NabtoPacket.PAYLOAD_CRYPT, NabtoPacket.FLAG_TAG,
      List.getD, hland]
  · simp [cryptoCodeOf, cryptOffset, inboundDataFrame, readUInt8,
      readUInt16BE, NabtoPacket.HDR_SIZE, NabtoPacket.FLAG_TAG, List.getD,
      hland]

/-! C9. -/

/-- C9 counterexample: a 3-byte command buffer yields no ping-response
result at all (null), rather than a result with every unavailable field
defaulted to 0. -/
theorem parsePingResponse_rejects_short_buffer :
    NabtoPacket.parsePingResponse [1, 2, 3] = none
    ∧ (none : Option NabtoPacket.PingInfo) ≠ some ⟨0, 0, 0, 0⟩ := by
  refine ⟨by decide, by decide⟩

/-- C9 amended: for every command buffer of at least 4 bytes,
parsePingResponse produces a result whose four fields are the unsigned
32-bit big-endian reads at offsets 0, 4, 12, 16, each field defaulting
to 0 when its four bytes are not fully available; buffers shorter than
4 bytes yield null. -/
theorem parsePingResponse_fields (p : Buf) (h : 4 ≤ p.length) :
    NabtoPacket.parsePingResponse p =
      some ⟨pingField p 0, pingField p 4, pingField p 12, pingField p 16⟩ := by
  rw [NabtoPacket.parsePingResponse, if_neg (by omega)]
  simp [pingField]

/-- C9 witness: the amended theorem evaluated on the 4-byte buffer
[1,2,3,4]: a result is produced and only the first field is populated. -/
theorem parsePingResponse_fields_witness :
    4 ≤ ([1, 2, 3, 4] : Buf).length
    ∧ NabtoPacket.parsePingResponse [1, 2, 3, 4] =
        some ⟨pingField [1, 2, 3, 4] 0, pingField [1, 2, 3, 4] 4,
          pingField [1, 2, 3, 4] 12, pingField [1, 2, 3, 4] 16⟩ :=
  ⟨by decide, parsePingResponse_fields [1, 2, 3, 4] (by decide)⟩

/-! C5. -/

/-- C5 counterexample: with maxConsecutiveErrors = 3, three consecutive
failing polls emit four error events (one per failed poll plus the
too-many-failures error), not three, before the engine disconnects. -/
theorem three_poll_failures_emit_four_errors :
    errorEventCount
      (pollFail (pollFail (pollFail
        (engineStart [("temperatureSetpoint", 21)])))).events = 4
    ∧ (4 : Nat) ≠ 3
    ∧ (pollFail (pollFail (pollFail
        (engineStart [("temperatureSetpoint", 21)])))).events.getLast? =
      some .disconnectedEvent := by
  refine ⟨by decide, by decide, by decide⟩

/-- C5 amended: three consecutive failing polls (maxConsecutiveErrors =
3) emit exactly four error events — one per failed poll plus the final
too-many-consecutive-failures error — and then the engine calls its own
disconnect(), resetting the consecutive-error counter to zero and
leaving the cached value set untouched; the first two failures alone do
not disconnect. -/
theorem poll_failure_escalation (cache : List (String × ℚ)) :
    (pollFail (engineStart cache)).events = [.errorEvent false]
    ∧ (pollFail (engineStart cache)).connected = true
    ∧ (pollFail (engineStart cache)).consecutiveErrors = 1
    ∧ (pollFail (engineStart cache)).data = cache
    ∧ (pollFail (pollFail (engineStart cache))).events =
        [.errorEvent false, .errorEvent false]
    ∧ (pollFail (pollFail (engineStart cache))).connected = true
    ∧ (pollFail (pollFail (engineStart cache))).consecutiveErrors = 2
    ∧ (pollFail (pollFail (engineStart cache))).data = cache
    ∧ (pollFail (pollFail (pollFail (engineStart cache)))).events =
        [.errorEvent false, .errorEvent false, .errorEvent false,
         .errorEvent true, .disconnectedEvent]
    ∧ errorEventCount
        (pollFail (pollFail (pollFail (engineStart cache)))).events = 4
    ∧ (pollFail (pollFail (pollFail (engineStart cache)))).connected = false
    ∧ (pollFail (pollFail (pollFail (engineStart cache)))).polling = false
    ∧ (pollFail (pollFail (pollFail (engineStart cache)))).consecutiveErrors = 0
    ∧ (pollFail (pollFail (pollFail (engineStart cache)))).data = cache := by
  refine ⟨rfl, rfl, rfl, rfl, rfl, rfl, rfl, rfl, rfl, rfl, rfl, rfl, rfl, rfl⟩

/-! C1. -/

/-- C1: while connected, a keep-alive tick advances the 100-199
keep-alive ring, but the PING packet actually sent on the wire always
carries header sequence id 50 (buildPingPacket hardcodes it), never a
value from the ring. -/
theorem keepAlive_ping_carries_seq_50 (s : ConnState) (clientId serverId : Nat)
    (hc : s.connected = true) (hs : s.hasSocket = true) :
    (keepAliveTick s clientId serverId).2 =
      some (NabtoPacket.buildPingPacket clientId serverId)
    ∧ (keepAliveTick s clientId serverId).1.keepAliveSeq =
        (if s.keepAliveSeq + 1 ≥ 200 then 100 else s.keepAliveSeq + 1)
    ∧ (NabtoPacket.parseHeader
        (NabtoPacket.buildPingPacket clientId serverId)).map
          (fun h => h.seqId) = some 50
    ∧ ¬(100 ≤ 50 ∧ 50 ≤ 199) := by
  refine ⟨?_, ?_, ?_, by omega⟩
  · simp [keepAliveTick, hc, hs]
  · simp [keepAliveTick, hc, hs]
  · simp [NabtoPacket.buildPingPacket, NabtoPacket.buildDataPacket,
      NabtoPacket.buildHeader, NabtoPacket.buildCryptPayload,
      NabtoPacket.computeChecksum, writeUInt16BE, writeUInt32BE,
      NabtoPacket.parseHeader, readUInt8, readUInt16BE, NabtoPacket.HDR_SIZE,
      NabtoPacket.HDR_VERSION, NabtoPacket.TYPE_DATA, NabtoPacket.FLAG_NONE,
      NabtoPacket.FLAG_TAG, NabtoPacket.PAYLOAD_CRYPT,
      NabtoPacket.CRYPTO_CLEARTEXT, NabtoPacket.CMD_PING, List.getD]

/-- C1 witness: the theorem evaluated on the first keep-alive tick of a
freshly connected session (keepAliveSeq = 100) with clientId 1 and
serverId 2. -/
theorem keepAlive_ping_carries_seq_50_witness :
    connectedState.connected = true
    ∧ connectedState.hasSocket = true
    ∧ ((keepAliveTick connectedState 1 2).2 =
        some (NabtoPacket.buildPingPacket 1 2)
      ∧ (keepAliveTick connectedState 1 2).1.keepAliveSeq =
          (if connectedState.keepAliveSeq + 1 ≥ 200 then 100
            else connectedState.keepAliveSeq + 1)
      ∧ (NabtoPacket.parseHeader (NabtoPacket.buildPingPacket 1 2)).map
          (fun h => h.seqId) = some 50
      ∧ ¬(100 ≤ 50 ∧ 50 ≤ 199)) :=
  ⟨rfl, rfl, keepAlive_ping_carries_seq_50 connectedState 1 2 rfl rfl⟩

/-! C6. -/

/-- The trace of allocated user sequence numbers is an arithmetic run
starting at the current counter. -/
lemma seqTrace_eq : ∀ (ops : List ReqKind) (s : ConnState),
    seqTrace s ops = (List.range ops.length).map (fun i => s.seqId + i)
  | [], _ => by simp [seqTrace]
  | k :: ks, s => by
    have ha : allocSeq s k = (s.seqId, { s with seqId := s.seqId + 1 }) := by
      cases k <;> rfl
    rw [seqTrace, ha, seqTrace_eq ks { s with seqId := s.seqId + 1 }]
    rw [List.length_cons, List.range_succ_eq_map]
    simp only [List.map_cons, List.map_map, Nat.add_zero]
    refine congrArg₂ _ rfl ?_
    refine List.map_congr_left fun i _ => ?_
    simp only [Function.comp]
    omega

/-- C6: on one session the i-th user request (readDatapoints,
readSetpoints or writeSetpoints) is assigned sequence number 300 + i,
so consecutive requests get strictly increasing sequence numbers and no
user request is ever assigned a number in [100, 199] or the number
50. -/
theorem userRequest_seq_discipline (ops : List ReqKind) (i : Nat)
    (hi : i < (seqTrace initConnState ops).length) :
    (seqTrace initConnState ops).getD i 0 = 300 + i
    ∧ (i + 1 < (seqTrace initConnState ops).length →
        (seqTrace initConnState ops).getD i 0
          < (seqTrace initConnState ops).getD (i + 1) 0)
    ∧ ¬(100 ≤ (seqTrace initConnState ops).getD i 0
        ∧ (seqTrace initConnState ops).getD i 0 ≤ 199)
    ∧ (seqTrace initConnState ops).getD i 0 ≠ 50 := by
  have key : ∀ j, j < (seqTrace initConnState ops).length →
      (seqTrace initConnState ops).getD j 0 = 300 + j := by
    intro j hj
    rw [seqTrace_eq] at hj ⊢
    rw [List.getD_eq_getElem _ _ hj]
    simp [initConnState]
  refine ⟨key i hi, ?_, ?_, ?_⟩
  · intro hi1
    rw [key i hi, key (i + 1) hi1]
    omega
  · rw [key i hi]
    omega
  · rw [key i hi]
    omega

/-- C6 witness: the theorem evaluated on a two-request session (a
datapoint read then a setpoint write) at the first request. -/
theorem userRequest_seq_discipline_witness :
    0 < (seqTrace initConnState [.readDatapoints, .writeSetpoints]).length
    ∧ ((seqTrace initConnState [.readDatapoints, .writeSetpoints]).getD 0 0
        = 300 + 0
      ∧ (0 + 1 <
          (seqTrace initConnState [.readDatapoints, .writeSetpoints]).length →
        (seqTrace initConnState [.readDatapoints, .writeSetpoints]).getD 0 0
          < (seqTrace initConnState
              [.readDatapoints, .writeSetpoints]).getD (0 + 1) 0)
      ∧ ¬(100 ≤ (seqTrace initConnState
            [.readDatapoints, .writeSetpoints]).getD 0 0
          ∧ (seqTrace initConnState
              [.readDatapoints, .writeSetpoints]).getD 0 0 ≤ 199)
      ∧ (seqTrace initConnState
          [.readDatapoints, .writeSetpoints]).getD 0 0 ≠ 50) :=
  ⟨by decide,
    userRequest_seq_discipline [.readDatapoints, .writeSetpoints] 0 (by decide)⟩

/-! C7. -/

set_option maxRecDepth 8000 in
/-- C7: values of a datapoint response are re-associated with the
requested keys positionally: with keys [A, B, C], a response declaring
three values maps A, B, C to the first, second and third decoded value,
and a response declaring only two values maps A and B, leaving C absent
from the result. -/
theorem positional_demux (A B C : String)
    (hAB : A ≠ B) (hAC : A ≠ C) (hBC : B ≠ C)
    (a1 a2 b1 b2 c1 c2 : Nat) :
    jsMapGet (readDatapointsResult [A, B, C] [0, 3, a1, a2, b1, b2, c1, c2]) A
      = some (readInt16BE [0, 3, a1, a2, b1, b2, c1, c2] 2)
    ∧ jsMapGet (readDatapointsResult [A, B, C] [0, 3, a1, a2, b1, b2, c1, c2]) B
      = some (readInt16BE [0, 3, a1, a2, b1, b2, c1, c2] 4)
    ∧ jsMapGet (readDatapointsResult [A, B, C] [0, 3, a1, a2, b1, b2, c1, c2]) C
      = some (readInt16BE [0, 3, a1, a2, b1, b2, c1, c2] 6)
    ∧ jsMapGet (readDatapointsResult [A, B, C] [0, 2, a1, a2, b1, b2]) A
      = some (readInt16BE [0, 2, a1, a2, b1, b2] 2)
    ∧ jsMapGet (readDatapointsResult [A, B, C] [0, 2, a1, a2, b1, b2]) B
      = some (readInt16BE [0, 2, a1, a2, b1, b2] 4)
    ∧ jsMapGet (readDatapointsResult [A, B, C] [0, 2, a1, a2, b1, b2]) C
      = none := by
  have hAB1 : (A == B) = false := beq_eq_false_iff_ne.mpr hAB
  have hAC1 : (A == C) = false := beq_eq_false_iff_ne.mpr hAC
  have hBC1 : (B == C) = false := beq_eq_false_iff_ne.mpr hBC
  have hp3 : NabtoPacket.parseDatapointResponse [0, 3, a1, a2, b1, b2, c1, c2] =
      [readInt16BE [0, 3, a1, a2, b1, b2, c1, c2] 2,
       readInt16BE [0, 3, a1, a2, b1, b2, c1, c2] 4,
       readInt16BE [0, 3, a1, a2, b1, b2, c1, c2] 6] := by
    simp [NabtoPacket.parseDatapointResponse, NabtoPacket.readValuesWith,
      readUInt16BE, List.getD]
  have hp2 : NabtoPacket.parseDatapointResponse [0, 2, a1, a2, b1, b2] =
      [readInt16BE [0, 2, a1, a2, b1, b2] 2,
       readInt16BE [0, 2, a1, a2, b1, b2] 4] := by
    simp [NabtoPacket.parseDatapointResponse, NabtoPacket.readValuesWith,
      readUInt16BE, List.getD]
  have hm3 : ∀ x y z : Int, buildResultMap [A, B, C] [x, y, z] =
      [(A, x), (B, y), (C, z)] := by
    intro x y z
    simp [buildResultMap, jsMapSet, List.range_succ, hAB1, hAC1, hBC1,
      List.getD]
  have hm2 : ∀ x y : Int, buildResultMap [A, B, C] [x, y] =
      [(A, x), (B, y)] := by
    intro x y
    simp [buildResultMap, jsMapSet, List.range_succ, hAB1, hAC1, hBC1,
      List.getD]
  refine ⟨?_, ?_, ?_, ?_, ?_, ?_⟩ <;>
    simp [readDatapointsResult, hp3, hp2, hm3, hm2, jsMapGet, hAB1, hAC1,
      hBC1]

/-- C7 witness: the theorem evaluated on keys A, B, C with a 3-value
response carrying 210, 200, -1 and a 2-value response carrying 210,
200. -/
theorem positional_demux_witness :
    ("A" : String) ≠ "B" ∧ ("A" : String) ≠ "C" ∧ ("B" : String) ≠ "C"
    ∧ (jsMapGet (readDatapointsResult ["A", "B", "C"]
          [0, 3, 0, 210, 0, 200, 255, 255]) "A"
        = some (readInt16BE [0, 3, 0, 210, 0, 200, 255, 255] 2)
      ∧ jsMapGet (readDatapointsResult ["A", "B", "C"]
          [0, 3, 0, 210, 0, 200, 255, 255]) "B"
        = some (readInt16BE [0, 3, 0, 210, 0, 200, 255, 255] 4)
      ∧ jsMapGet (readDatapointsResult ["A", "B", "C"]
          [0, 3, 0, 210, 0, 200, 255, 255]) "C"
        = some (readInt16BE [0, 3, 0, 210, 0, 200, 255, 255] 6)
      ∧ jsMapGet (readDatapointsResult ["A", "B", "C"]
          [0, 2, 0, 210, 0, 200]) "A"
        = some (readInt16BE [0, 2, 0, 210, 0, 200] 2)
      ∧ jsMapGet (readDatapointsResult ["A", "B", "C"]
          [0, 2, 0, 210, 0, 200]) "B"
        = some (readInt16BE [0, 2, 0, 210, 0, 200] 4)
      ∧ jsMapGet (readDatapointsResult ["A", "B", "C"]
          [0, 2, 0, 210, 0, 200]) "C"
        = none) :=
  ⟨by decide, by decide, by decide,
    positional_demux "A" "B" "C" (by decide) (by decide) (by decide)
      0 210 0 200 255 255⟩

/-! C4. -/

/-- Unknown setpoint names throw before any effect. -/
lemma setValue_unknown (catalog : List Setpoint) (cache : List (String × ℚ))
    (name : String) (v : ℚ) (h : getSetpointByName catalog name = none) :
    setValue catalog cache name v = ⟨[], cache, some .unknownSetpoint⟩ := by
  simp [setValue, h]

/-- An in-range raw value results in exactly one write entry and the
cache update. -/
lemma setValue_ok (catalog : List Setpoint) (cache : List (String × ℚ))
    (name : String) (v : ℚ) (r : Setpoint)
    (hfind : getSetpointByName catalog name = some r)
    (hb : belowMinCheck r (toRawSetpointValue v r) = false)
    (ha : aboveMaxCheck r (toRawSetpointValue v r) = false) :
    setValue catalog cache name v =
      ⟨[[⟨0, toRawSetpointValue v r, r.writeAddress⟩]], jsMapSet cache name v,
        none⟩ := by
  simp [setValue, hfind, hb, ha]

/-- An out-of-range raw value throws a non-unknown error before any
effect. -/
lemma setValue_range_err (catalog : List Setpoint) (cache : List (String × ℚ))
    (name : String) (v : ℚ) (r : Setpoint)
    (hfind : getSetpointByName catalog name = some r)
    (hviol : belowMinCheck r (toRawSetpointValue v r) = true
      ∨ aboveMaxCheck r (toRawSetpointValue v r) = true) :
    (setValue catalog cache name v).sent = []
    ∧ (setValue catalog cache name v).cache = cache
    ∧ ∃ e, (setValue catalog cache name v).thrown = some e
        ∧ e ≠ SetValueError.unknownSetpoint := by
  by_cases hb : belowMinCheck r (toRawSetpointValue v r) = true
  · refine ⟨?_, ?_,
      ⟨.belowMin (toRawSetpointValue v r) (r.min.getD 0), ?_, by simp⟩⟩ <;>
      simp [setValue, hfind, hb]
  · have ha : aboveMaxCheck r (toRawSetpointValue v r) = true := by
      rcases hviol with h | h
      · exact absurd h hb
      · exact h
    refine ⟨?_, ?_,
      ⟨.aboveMax (toRawSetpointValue v r) (r.max.getD 0), ?_, by simp⟩⟩ <;>
      simp [setValue, hfind, hb, ha]

/-- The concrete conversion of the claim: display 22.0 against the
Optima 270 temperature setpoint (divider 10, offset 100) gives raw
round(22 * 10) - 100 = 120. -/
lemma toRaw_temp22 :
    toRawSetpointValue 22 Optima270.TEMP_SETPOINT = 120 := by
  rw [toRawSetpointValue]
  have h220 : (22 : ℚ) * effDivider Optima270.TEMP_SETPOINT.divider =
      ((220 : ℤ) : ℚ) := by
    norm_num [effDivider, Optima270.TEMP_SETPOINT]
  rw [h220, round_intCast]
  norm_num [Optima270.TEMP_SETPOINT]

/-- C4: setValue fails with the unknown-setpoint error when no setpoint
has the requested name and with an out-of-range error when the raw
value violates the register bounds, in both cases sending nothing and
leaving the cache unchanged; otherwise it issues one writeSetpoints
call with the single entry (id 0, raw value, writeAddress) and then
caches the display value.  In particular
setValue("temperatureSetpoint", 22.0) on the Optima 270 catalog sends
id=0, value=120, param=12. -/
theorem setValue_validates_and_writes (catalog : List Setpoint)
    (cache : List (String × ℚ)) (name : String) (v : ℚ) :
    (getSetpointByName catalog name = none →
      setValue catalog cache name v = ⟨[], cache, some .unknownSetpoint⟩)
    ∧ (∀ r, getSetpointByName catalog name = some r →
        (belowMinCheck r (toRawSetpointValue v r) = true
          ∨ aboveMaxCheck r (toRawSetpointValue v r) = true) →
        (setValue catalog cache name v).sent = []
        ∧ (setValue catalog cache name v).cache = cache
        ∧ ∃ e, (setValue catalog cache name v).thrown = some e
            ∧ e ≠ SetValueError.unknownSetpoint)
    ∧ (∀ r, getSetpointByName catalog name = some r →
        belowMinCheck r (toRawSetpointValue v r) = false →
        aboveMaxCheck r (toRawSetpointValue v r) = false →
        setValue catalog cache name v =
          ⟨[[⟨0, toRawSetpointValue v r, r.writeAddress⟩]],
            jsMapSet cache name v, none⟩)
    ∧ setValue Optima270.setpointList cache "temperatureSetpoint" 22 =
        ⟨[[⟨0, 120, 12⟩]], jsMapSet cache "temperatureSetpoint" 22, none⟩ := by
  refine ⟨setValue_unknown catalog cache name v,
    fun r hf hv => setValue_range_err catalog cache name v r hf hv,
    fun r hf hb ha => setValue_ok catalog cache name v r hf hb ha, ?_⟩
  have hb : belowMinCheck Optima270.TEMP_SETPOINT
      (toRawSetpointValue 22 Optima270.TEMP_SETPOINT) = false := by
    rw [toRaw_temp22]
    decide
  have ha : aboveMaxCheck Optima270.TEMP_SETPOINT
      (toRawSetpointValue 22 Optima270.TEMP_SETPOINT) = false := by
    rw [toRaw_temp22]
    decide
  have h := setValue_ok Optima270.setpointList cache "temperatureSetpoint" 22
    Optima270.TEMP_SETPOINT (by decide) hb ha
  rw [h, toRaw_temp22]
  rfl

/-- C4 witness: the theorem evaluated on the Optima 270 catalog with an
empty cache; its closed final conjunct gives the concrete write of the
claim. -/
theorem setValue_validates_and_writes_witness :
    getSetpointByName Optima270.setpointList "temperatureSetpoint" =
      some Optima270.TEMP_SETPOINT
    ∧ belowMinCheck Optima270.TEMP_SETPOINT
        (toRawSetpointValue 22 Optima270.TEMP_SETPOINT) = false
    ∧ aboveMaxCheck Optima270.TEMP_SETPOINT
        (toRawSetpointValue 22 Optima270.TEMP_SETPOINT) = false
    ∧ setValue Optima270.setpointList [] "temperatureSetpoint" 22 =
        ⟨[[⟨0, toRawSetpointValue 22 Optima270.TEMP_SETPOINT,
            Optima270.TEMP_SETPOINT.writeAddress⟩]],
          jsMapSet [] "temperatureSetpoint" 22, none⟩ :=
  ⟨by decide, by rw [toRaw_temp22]; decide, by rw [toRaw_temp22]; decide,
    (setValue_validates_and_writes Optima270.setpointList []
        "temperatureSetpoint" 22).2.2.1 Optima270.TEMP_SETPOINT
      (by decide) (by rw [toRaw_temp22]; decide)
      (by rw [toRaw_temp22]; decide)⟩

/-! C8. -/

/-- C8: for every setpoint register of the Optima 270 or Optima 251
catalog and every display value whose product with the effective
divider is an integer, converting the written raw value back with
(raw + offset) / divider recovers the display value exactly. -/
theorem setpoint_conversion_roundtrip (r : Setpoint)
    (hr : r ∈ Optima270.setpointList ∨ r ∈ Optima251.setpointList)
    (v : ℚ) (n : ℤ) (hv : (n : ℚ) = v * effDivider r.divider) :
    convertSetpointValue ((toRawSetpointValue v r : ℤ) : ℚ) r = v := by
  have hd : effDivider r.divider ≠ 0 := by
    rw [effDivider]
    split
    · norm_num
    · exact_mod_cast (by assumption : ¬ r.divider = 0)
  rw [convertSetpointValue, toRawSetpointValue, ← hv, round_intCast]
  push_cast
  rw [hv]
  field_simp

/-- C8 witness: the theorem evaluated on the Optima 270 temperature
setpoint at display value 22 (22 * 10 = 220 is an integer): the round
trip through raw value 120 returns 22. -/
theorem setpoint_conversion_roundtrip_witness :
    (Optima270.TEMP_SETPOINT ∈ Optima270.setpointList
      ∨ Optima270.TEMP_SETPOINT ∈ Optima251.setpointList)
    ∧ ((220 : ℤ) : ℚ) = 22 * effDivider Optima270.TEMP_SETPOINT.divider
    ∧ convertSetpointValue
        ((toRawSetpointValue 22 Optima270.TEMP_SETPOINT : ℤ) : ℚ)
        Optima270.TEMP_SETPOINT = 22 :=
  ⟨by decide, by norm_num [effDivider, Optima270.TEMP_SETPOINT],
    setpoint_conversion_roundtrip Optima270.TEMP_SETPOINT (by decide) 22 220
      (by norm_num [effDivider, Optima270.TEMP_SETPOINT])⟩

end Genvex
